import Mathlib

/-!
# Verification of the photon-mapping renderer core

Shallow embedding of `src/include/integrator.h` and `src/main.cpp` of the
photon-mapping repository. C++ `float` arithmetic is modelled over `ℚ`
(the claims under scrutiny are about which formula is computed, not about
rounding), `int` is modelled as `ℤ`, loop state is passed explicitly, and
the support headers that are not part of the repository snapshot
(`geometry.h`, `photon_map.h`, `scene.h`, `sampler.h`) are modelled from
the specification as abstract structures with function-valued fields.
-/

set_option autoImplicit false

namespace PM

/-- Three-component vector over `ℚ`, modelling `Vec3f` of `geometry.h`
(missing from `src/`; modelled from the spec: componentwise arithmetic,
scalar multiplication and division, dot product). -/
structure Vec3 where
  x : ℚ
  y : ℚ
  z : ℚ
deriving DecidableEq

instance : Zero Vec3 := ⟨⟨0, 0, 0⟩⟩

instance : Add Vec3 := ⟨fun a b => ⟨a.x + b.x, a.y + b.y, a.z + b.z⟩⟩

instance : Sub Vec3 := ⟨fun a b => ⟨a.x - b.x, a.y - b.y, a.z - b.z⟩⟩

instance : Neg Vec3 := ⟨fun a => ⟨-a.x, -a.y, -a.z⟩⟩

/-- Componentwise product, mirroring `Vec3f operator*(Vec3f, Vec3f)`. -/
instance : Mul Vec3 := ⟨fun a b => ⟨a.x * b.x, a.y * b.y, a.z * b.z⟩⟩

instance : HMul Vec3 ℚ Vec3 := ⟨fun a s => ⟨a.x * s, a.y * s, a.z * s⟩⟩

instance : HMul ℚ Vec3 Vec3 := ⟨fun s a => ⟨s * a.x, s * a.y, s * a.z⟩⟩

instance : HDiv Vec3 ℚ Vec3 := ⟨fun a s => ⟨a.x / s, a.y / s, a.z / s⟩⟩

/-- Dot product of two vectors. -/
def Vec3.dot (a b : Vec3) : ℚ := a.x * b.x + a.y * b.y + a.z * b.z

/-- Transport direction tag (`TransportDirection` in the source). -/
inductive TransportDirection where
  | FROM_CAMERA
  | FROM_LIGHT
deriving DecidableEq

/-- Material tag (`BxDFType` in the source). -/
inductive BxDFType where
  | DIFFUSE
  | SPECULAR
deriving DecidableEq

/-- Surface data at a hit point (`SurfaceInfo` of `geometry.h`, missing
from `src/`; modelled from the spec: position, shading normal, geometric
normal). -/
structure SurfaceInfo where
  position : Vec3
  shadingNormal : Vec3
  geometricNormal : Vec3
deriving DecidableEq

/-- Embedding of `Integrator::cosTerm` (`integrator.h` lines 27-55).
The source's third branch (invalid transport direction, `std::exit`) is
unreachable because `TransportDirection` has exactly two constructors. -/
def cosTerm (wo wi : Vec3) (surfaceInfo : SurfaceInfo)
    (transport_dir : TransportDirection) : ℚ :=
  let wi_ns := Vec3.dot wi surfaceInfo.shadingNormal
  let wi_ng := Vec3.dot wi surfaceInfo.geometricNormal
  let wo_ns := Vec3.dot wo surfaceInfo.shadingNormal
  let wo_ng := Vec3.dot wo surfaceInfo.geometricNormal
  if wi_ng * wi_ns ≤ 0 ∨ wo_ng * wo_ns ≤ 0 then 0
  else
    match transport_dir with
    | TransportDirection.FROM_CAMERA => |wi_ns|
    | TransportDirection.FROM_LIGHT => |wo_ns| * |wi_ng| / |wo_ng|

/-- C3: `cosTerm` returns 0 whenever `(wi·n_geom)·(wi·n_shading) ≤ 0` or
`(wo·n_geom)·(wo·n_shading) ≤ 0`; otherwise it returns `|wi · n_shading|`
for `FROM_CAMERA` and `|wo · n_shading| · |wi · n_geom| / |wo · n_geom|`
for `FROM_LIGHT`. -/
theorem cosTerm_characterization (wo wi : Vec3) (si : SurfaceInfo) :
    ((Vec3.dot wi si.geometricNormal * Vec3.dot wi si.shadingNormal ≤ 0 ∨
      Vec3.dot wo si.geometricNormal * Vec3.dot wo si.shadingNormal ≤ 0) →
      ∀ td, cosTerm wo wi si td = 0) ∧
    (0 < Vec3.dot wi si.geometricNormal * Vec3.dot wi si.shadingNormal →
      0 < Vec3.dot wo si.geometricNormal * Vec3.dot wo si.shadingNormal →
      cosTerm wo wi si TransportDirection.FROM_CAMERA =
        |Vec3.dot wi si.shadingNormal| ∧
      cosTerm wo wi si TransportDirection.FROM_LIGHT =
        |Vec3.dot wo si.shadingNormal| * |Vec3.dot wi si.geometricNormal| /
          |Vec3.dot wo si.geometricNormal|) := by
  constructor
  · intro h td
    simp only [cosTerm]
    rw [if_pos h]
  · intro hwi hwo
    have hguard : ¬(Vec3.dot wi si.geometricNormal * Vec3.dot wi si.shadingNormal ≤ 0 ∨
        Vec3.dot wo si.geometricNormal * Vec3.dot wo si.shadingNormal ≤ 0) := by
      push_neg
      exact ⟨hwi, hwo⟩
    constructor
    · simp only [cosTerm]
      rw [if_neg hguard]
    · simp only [cosTerm]
      rw [if_neg hguard]

/-- Modelled from the spec: deterministic random source (`sampler.h`
missing from `src/`); an explicit stream of variates, `getNext1D`
consuming the head. -/
structure Sampler where
  draws : List ℚ
deriving DecidableEq

/-- Consume one uniform variate (stream head; 0 when exhausted). -/
def Sampler.getNext1D : Sampler → ℚ × Sampler
  | ⟨[]⟩ => (0, ⟨[]⟩)
  | ⟨d :: rest⟩ => (d, ⟨rest⟩)

/-- Result of `sampleBxDF`: the BSDF value `f`, the sampled direction,
its pdf, and the advanced sampler (the C++ version returns `f` and writes
`dir` and `pdf` through reference parameters, mutating the sampler). -/
structure BxDFSample where
  f : Vec3
  dir : Vec3
  pdf : ℚ
  sampler : Sampler

/-- Modelled from the spec: a primitive (`scene.h` missing from `src/`)
with its material tag, BSDF evaluation and sampling, emitter flag and
emitted radiance. -/
structure Primitive where
  bxdfType : BxDFType
  hasAreaLight : Bool
  emittedLe : SurfaceInfo → Vec3 → Vec3
  evaluateBxDF : Vec3 → Vec3 → SurfaceInfo → TransportDirection → Vec3
  sampleBxDF : Vec3 → SurfaceInfo → TransportDirection → Sampler → BxDFSample
  sampleAllBxDF : Vec3 → SurfaceInfo → TransportDirection → List (Vec3 × Vec3)

/-- Intersection record (`IntersectInfo` of `scene.h`, missing from
`src/`): surface data plus the hit primitive. -/
structure IntersectInfo where
  surfaceInfo : SurfaceInfo
  hitPrimitive : Primitive

/-- Ray with origin, direction and maximum parameter (`geometry.h`
missing from `src/`; modelled from the spec). -/
structure Ray where
  origin : Vec3
  direction : Vec3
  tmax : ℚ

/-- Modelled from the spec: default `tmax` of a freshly constructed ray
(a very large value standing for the C++ float maximum). -/
def RAY_TMAX : ℚ := 1000000000

/-- Two-argument `Ray` constructor `Ray(origin, direction)`. -/
def mkRay (origin direction : Vec3) : Ray := ⟨origin, direction, RAY_TMAX⟩

/-- Modelled from the spec: the shadow-ray epsilon `RAY_EPS` of
`geometry.h` (missing from `src/`); a small positive constant whose exact
value the claims do not depend on. -/
def RAY_EPS : ℚ := 1 / 100000

/-- Modelled from the spec: the float constant `PI` of `geometry.h`
(missing from `src/`). -/
def PI : ℚ := 3.14159265358979323846

/-- Photon record: power (named `throughput` as in the source), deposit
position, and incoming direction `wi`. -/
structure Photon where
  throughput : Vec3
  position : Vec3
  wi : Vec3
deriving DecidableEq

instance : Inhabited Photon := ⟨⟨0, 0, 0⟩⟩

/-- Modelled from the spec: photon store with k-NN index (`photon_map.h`
missing from `src/`). The k-d tree is abstracted into a query function
returning the indices of the k nearest photons together with the squared
radius `max_dist2` of the enclosing ball; the estimator under
verification treats it as a black box. -/
structure PhotonMap where
  photons : List Photon
  query : Vec3 → ℤ → List ℕ × ℚ

/-- Photon lookup by index (`getIthPhoton`). -/
def PhotonMap.getIthPhoton (m : PhotonMap) (i : ℕ) : Photon :=
  m.photons.getD i default

/-- k-NN query (`queryKNearestPhotons`): indices and squared radius. -/
def PhotonMap.queryKNearestPhotons (m : PhotonMap) (p : Vec3) (k : ℤ) :
    List ℕ × ℚ :=
  m.query p k

/-- Modelled from the spec: a light (`light.h` missing from `src/`) with
point sampling (area density), direction sampling (solid-angle density)
and emitted radiance `Le`. Samplers are threaded explicitly. -/
structure Light where
  samplePoint : Sampler → SurfaceInfo × ℚ × Sampler
  sampleDirection : SurfaceInfo → Sampler → Vec3 × ℚ × Sampler
  emittedLe : SurfaceInfo → Vec3 → Vec3

/-- Modelled from the spec: the scene (`scene.h` missing from `src/`)
abstracted into its intersection service and light selection. -/
structure Scene where
  intersect : Ray → Option IntersectInfo
  sampleLight : Sampler → Light × ℚ × Sampler

/-- State of a `PhotonMapping` integrator: the six constructor-settable
counts and the two photon maps (`integrator.h` lines 61-81). -/
structure PhotonMapping where
  nPhotonsGlobal : ℤ
  nEstimationGlobal : ℤ
  nPhotonsCaustics : ℤ
  nEstimationCaustics : ℤ
  finalGatheringDepth : ℤ
  maxDepth : ℤ
  globalPhotonMap : PhotonMap
  causticsPhotonMap : PhotonMap

/-- Embedding of `PhotonMapping::computeRadianceWithPhotonMap`
(`integrator.h` lines 84-106): global-map k-NN query with
`nEstimationGlobal`, BSDF-weighted accumulation, division by
`nPhotonsGlobal · PI · max_dist2` when any photon was returned. -/
def computeRadianceWithPhotonMap (pm : PhotonMapping) (wo : Vec3)
    (info : IntersectInfo) : Vec3 :=
  let q := pm.globalPhotonMap.queryKNearestPhotons info.surfaceInfo.position
    pm.nEstimationGlobal
  let photon_indices := q.1
  let max_dist2 := q.2
  let Lo := photon_indices.foldl (fun Lo photon_idx =>
    let photon := pm.globalPhotonMap.getIthPhoton photon_idx
    let f := info.hitPrimitive.evaluateBxDF wo photon.wi info.surfaceInfo
      TransportDirection.FROM_CAMERA
    Lo + f * photon.throughput) 0
  if photon_indices.length > 0 then
    Lo / ((pm.nPhotonsGlobal : ℚ) * PI * max_dist2)
  else Lo

/-- Embedding of `PhotonMapping::computeCausticsWithPhotonMap`
(`integrator.h` lines 109-132). Note that the source queries the caustics
map with `nEstimationGlobal` (line 116), not `nEstimationCaustics`, while
dividing by `nPhotonsCaustics`. -/
def computeCausticsWithPhotonMap (pm : PhotonMapping) (wo : Vec3)
    (info : IntersectInfo) : Vec3 :=
  let q := pm.causticsPhotonMap.queryKNearestPhotons info.surfaceInfo.position
    pm.nEstimationGlobal
  let photon_indices := q.1
  let max_dist2 := q.2
  let Lo := photon_indices.foldl (fun Lo photon_idx =>
    let photon := pm.causticsPhotonMap.getIthPhoton photon_idx
    let f := info.hitPrimitive.evaluateBxDF wo photon.wi info.surfaceInfo
      TransportDirection.FROM_CAMERA
    Lo + f * photon.throughput) 0
  if photon_indices.length > 0 then
    Lo / ((pm.nPhotonsCaustics : ℚ) * PI * max_dist2)
  else Lo

/-- Variant of the caustic estimator written from the claim's words
(refinement comparison for C1): identical, except that the k-NN query
uses the caustic map's own estimation count `nEstimationCaustics`. -/
def computeCausticsWithPhotonMapClaim (pm : PhotonMapping) (wo : Vec3)
    (info : IntersectInfo) : Vec3 :=
  let q := pm.causticsPhotonMap.queryKNearestPhotons info.surfaceInfo.position
    pm.nEstimationCaustics
  let photon_indices := q.1
  let max_dist2 := q.2
  let Lo := photon_indices.foldl (fun Lo photon_idx =>
    let photon := pm.causticsPhotonMap.getIthPhoton photon_idx
    let f := info.hitPrimitive.evaluateBxDF wo photon.wi info.surfaceInfo
      TransportDirection.FROM_CAMERA
    Lo + f * photon.throughput) 0
  if photon_indices.length > 0 then
    Lo / ((pm.nPhotonsCaustics : ℚ) * PI * max_dist2)
  else Lo

/-- Unfolding lemma for vector addition. -/
theorem Vec3.add_def (a b : Vec3) :
    a + b = ⟨a.x + b.x, a.y + b.y, a.z + b.z⟩ := rfl

/-- Unfolding lemma for componentwise multiplication. -/
theorem Vec3.mul_def (a b : Vec3) :
    a * b = ⟨a.x * b.x, a.y * b.y, a.z * b.z⟩ := rfl

/-- Unfolding lemma for right scalar multiplication. -/
theorem Vec3.smul_def (a : Vec3) (s : ℚ) :
    a * s = ⟨a.x * s, a.y * s, a.z * s⟩ := rfl

/-- Unfolding lemma for left scalar multiplication. -/
theorem Vec3.smul_left_def (s : ℚ) (a : Vec3) :
    s * a = ⟨s * a.x, s * a.y, s * a.z⟩ := rfl

/-- Unfolding lemma for scalar division. -/
theorem Vec3.div_def (a : Vec3) (s : ℚ) :
    a / s = ⟨a.x / s, a.y / s, a.z / s⟩ := rfl

/-- Unfolding lemma for negation. -/
theorem Vec3.neg_def (a : Vec3) : -a = ⟨-a.x, -a.y, -a.z⟩ := rfl

/-- Unfolding lemma for subtraction. -/
theorem Vec3.sub_def (a b : Vec3) :
    a - b = ⟨a.x - b.x, a.y - b.y, a.z - b.z⟩ := rfl

/-- Unfolding lemma for the zero vector. -/
theorem Vec3.zero_def : (0 : Vec3) = ⟨0, 0, 0⟩ := rfl

instance : AddCommMonoid Vec3 where
  add_assoc a b c := by simp [Vec3.add_def, add_assoc]
  zero_add a := by cases a; simp [Vec3.add_def, Vec3.zero_def]
  add_zero a := by cases a; simp [Vec3.add_def, Vec3.zero_def]
  add_comm a b := by simp [Vec3.add_def, add_comm]
  nsmul := nsmulRec

/-- Accumulating a mapped contribution with `foldl` equals the initial
value plus the sum of the mapped list. -/
theorem vec3_foldl_add_eq_sum {α : Type} (g : α → Vec3) (l : List α)
    (init : Vec3) :
    l.foldl (fun acc a => acc + g a) init = init + (l.map g).sum := by
  induction l generalizing init with
  | nil => simp
  | cons a t ih => simp [ih, add_assoc]

/-- Common shape of both density estimators: divide the accumulated sum
by the kernel denominator when the query returned photons, and produce
exactly 0 otherwise. -/
theorem density_estimate_shape (l : List ℕ) (g : ℕ → Vec3) (d : ℚ) :
    (if l.length > 0 then (l.foldl (fun acc i => acc + g i) 0) / d
     else l.foldl (fun acc i => acc + g i) 0) =
    if l.length > 0 then (l.map g).sum / d else 0 := by
  cases l with
  | nil => simp
  | cons a t => simp [vec3_foldl_add_eq_sum]

/-- Concrete surface used by witnesses: shading and geometric normal both
`(0,0,1)` at the origin. -/
def siW : SurfaceInfo := ⟨⟨0, 0, 0⟩, ⟨0, 0, 1⟩, ⟨0, 0, 1⟩⟩

/-- Concrete direction used by witnesses. -/
def vW : Vec3 := ⟨0, 0, 1⟩

/-- Witness for C3 at a concrete non-leaking configuration. -/
theorem cosTerm_characterization_witness :
    (0 : ℚ) < Vec3.dot vW siW.geometricNormal * Vec3.dot vW siW.shadingNormal ∧
    cosTerm vW vW siW TransportDirection.FROM_CAMERA =
      |Vec3.dot vW siW.shadingNormal| :=
  ⟨by norm_num [vW, siW, Vec3.dot],
    ((cosTerm_characterization vW vW siW).2 (by norm_num [vW, siW, Vec3.dot])
      (by norm_num [vW, siW, Vec3.dot])).1⟩

/-- C4: each density-estimation call accumulates
`Σ f(wo, photon.wi, hit, FROM_CAMERA) · photon.power` over the k-NN query
results; when at least one photon is returned the accumulator is divided
by `N_pass · π · r²` with `N_pass` the photon count of the generating
pass (`nPhotonsGlobal` for the global map, `nPhotonsCaustics` for the
caustic map, not the returned k); when no photons are returned the result
is exactly 0. -/
theorem densityEstimator_characterization (pm : PhotonMapping) (wo : Vec3)
    (info : IntersectInfo) :
    (computeRadianceWithPhotonMap pm wo info =
      if (pm.globalPhotonMap.queryKNearestPhotons info.surfaceInfo.position
            pm.nEstimationGlobal).1.length > 0 then
        ((pm.globalPhotonMap.queryKNearestPhotons info.surfaceInfo.position
            pm.nEstimationGlobal).1.map (fun i =>
          info.hitPrimitive.evaluateBxDF wo
              (pm.globalPhotonMap.getIthPhoton i).wi info.surfaceInfo
              TransportDirection.FROM_CAMERA *
            (pm.globalPhotonMap.getIthPhoton i).throughput)).sum /
          ((pm.nPhotonsGlobal : ℚ) * PI *
            (pm.globalPhotonMap.queryKNearestPhotons info.surfaceInfo.position
              pm.nEstimationGlobal).2)
      else 0) ∧
    (computeCausticsWithPhotonMap pm wo info =
      if (pm.causticsPhotonMap.queryKNearestPhotons info.surfaceInfo.position
            pm.nEstimationGlobal).1.length > 0 then
        ((pm.causticsPhotonMap.queryKNearestPhotons info.surfaceInfo.position
            pm.nEstimationGlobal).1.map (fun i =>
          info.hitPrimitive.evaluateBxDF wo
              (pm.causticsPhotonMap.getIthPhoton i).wi info.surfaceInfo
              TransportDirection.FROM_CAMERA *
            (pm.causticsPhotonMap.getIthPhoton i).throughput)).sum /
          ((pm.nPhotonsCaustics : ℚ) * PI *
            (pm.causticsPhotonMap.queryKNearestPhotons info.surfaceInfo.position
              pm.nEstimationGlobal).2)
      else 0) := by
  constructor
  · simp only [computeRadianceWithPhotonMap]
    exact density_estimate_shape _ _ _
  · simp only [computeCausticsWithPhotonMap]
    exact density_estimate_shape _ _ _

/-- Caustic-map photon at squared distance 1 from the origin. -/
def photonA : Photon := ⟨⟨1, 1, 1⟩, ⟨1, 0, 0⟩, ⟨0, 0, 1⟩⟩

/-- Caustic-map photon at squared distance 4 from the origin. -/
def photonB : Photon := ⟨⟨1, 1, 1⟩, ⟨2, 0, 0⟩, ⟨0, 0, 1⟩⟩

/-- Concrete caustic photon map over `photonA` and `photonB` with a k-NN
query consistent with the nearest-neighbour contract: the single nearest
photon has squared distance 1, the two nearest have enclosing squared
radius 4. -/
def causticMapC1 : PhotonMap :=
  ⟨[photonA, photonB],
    fun _ k => if k = 1 then ([0], 1) else if k = 2 then ([0, 1], 4) else ([], 0)⟩

/-- Diffuse primitive whose BSDF evaluates to `(1,1,1)` everywhere. -/
def diffusePrimW : Primitive where
  bxdfType := BxDFType.DIFFUSE
  hasAreaLight := false
  emittedLe := fun _ _ => 0
  evaluateBxDF := fun _ _ _ _ => ⟨1, 1, 1⟩
  sampleBxDF := fun _ _ _ s => ⟨0, 0, 1, s⟩
  sampleAllBxDF := fun _ _ _ => []

/-- Diffuse hit at the origin with the constant-BSDF primitive. -/
def infoW : IntersectInfo := ⟨siW, diffusePrimW⟩

/-- Photon map with no photons. -/
def emptyMap : PhotonMap := ⟨[], fun _ _ => ([], 0)⟩

/-- Integrator state with distinct estimation counts for the two maps:
`nEstimationGlobal = 1`, `nEstimationCaustics = 2`. -/
def pmC1 : PhotonMapping where
  nPhotonsGlobal := 1
  nEstimationGlobal := 1
  nPhotonsCaustics := 1
  nEstimationCaustics := 2
  finalGatheringDepth := 1
  maxDepth := 5
  globalPhotonMap := emptyMap
  causticsPhotonMap := causticMapC1

/-- C1 (code divergence): at a concrete diffuse hit the caustic estimator
of the source queries the caustic store with `nEstimationGlobal` (= 1),
yielding `1/π` per channel, while the claimed query with the caustic
map's own `nEstimationCaustics` (= 2) would yield `1/(2π)`; the two
results differ, so the source does not use the caustic map's own
estimation count. -/
theorem caustics_query_uses_global_k :
    pmC1.nEstimationGlobal = 1 ∧ pmC1.nEstimationCaustics = 2 ∧
    computeCausticsWithPhotonMap pmC1 vW infoW = ⟨1 / PI, 1 / PI, 1 / PI⟩ ∧
    computeCausticsWithPhotonMapClaim pmC1 vW infoW =
      ⟨1 / (2 * PI), 1 / (2 * PI), 1 / (2 * PI)⟩ ∧
    computeCausticsWithPhotonMap pmC1 vW infoW ≠
      computeCausticsWithPhotonMapClaim pmC1 vW infoW := by
  refine ⟨rfl, rfl, ?_, ?_, ?_⟩
  · simp [computeCausticsWithPhotonMap, pmC1, causticMapC1, infoW, siW,
      diffusePrimW, photonA, photonB, PhotonMap.queryKNearestPhotons,
      PhotonMap.getIthPhoton, Vec3.mul_def, Vec3.add_def, Vec3.div_def,
      Vec3.zero_def]
  · simp [computeCausticsWithPhotonMapClaim, pmC1, causticMapC1, infoW, siW,
      diffusePrimW, photonA, photonB, PhotonMap.queryKNearestPhotons,
      PhotonMap.getIthPhoton, Vec3.mul_def, Vec3.add_def, Vec3.div_def,
      Vec3.zero_def, PI]
    norm_num
  · simp [computeCausticsWithPhotonMap, computeCausticsWithPhotonMapClaim,
      pmC1, causticMapC1, infoW, siW, diffusePrimW, photonA, photonB,
      PhotonMap.queryKNearestPhotons, PhotonMap.getIthPhoton, Vec3.mul_def,
      Vec3.add_def, Vec3.div_def, Vec3.zero_def, PI]
    norm_num

/-- Embedding of `PhotonMapping::computeDirectIllumination`
(`integrator.h` lines 135-172). `sq` is the square-root function of the
float library, kept abstract: `length v = sq (v·v)` and
`normalize v = v / length v` (modelled from the spec, `geometry.h`
missing from `src/`). The sampler is threaded explicitly. -/
def computeDirectIllumination (sq : ℚ → ℚ) (scene : Scene) (wo : Vec3)
    (info : IntersectInfo) (sampler : Sampler) : Vec3 × Sampler :=
  let lc := scene.sampleLight sampler
  let light := lc.1
  let pdf_choose_light := lc.2.1
  let s1 := lc.2.2
  let ps := light.samplePoint s1
  let light_surf := ps.1
  let pdf_pos_light := ps.2.1
  let s2 := ps.2.2
  let d := light_surf.position - info.surfaceInfo.position
  let r := sq (Vec3.dot d d)
  let wi := d / r
  let pdf_dir :=
    pdf_pos_light * r * r / |Vec3.dot (-wi) light_surf.shadingNormal|
  let ray_shadow : Ray := ⟨info.surfaceInfo.position, wi, r - RAY_EPS⟩
  match scene.intersect ray_shadow with
  | none =>
    let le := light.emittedLe light_surf (-wi)
    let f := info.hitPrimitive.evaluateBxDF wo wi info.surfaceInfo
      TransportDirection.FROM_CAMERA
    let c := |Vec3.dot wi info.surfaceInfo.shadingNormal|
    (f * c * le / (pdf_choose_light * pdf_dir), s2)
  | some _ => (0, s2)

/-- C9: next-event estimation converts the area density to the
solid-angle density `p_ω = p_pos · r² / |(-wi) · n_light_shading|`, casts
the shadow ray with `tmax = r − ε`, and returns
`f(wo, wi, FROM_CAMERA) · |wi · n_shading| · Le / (p_L · p_ω)` when the
shadow ray hits nothing and 0 otherwise. -/
theorem nee_characterization (sq : ℚ → ℚ) (scene : Scene) (wo : Vec3)
    (info : IntersectInfo) (sampler : Sampler) :
    computeDirectIllumination sq scene wo info sampler =
      (let p_L := (scene.sampleLight sampler).2.1
       let light := (scene.sampleLight sampler).1
       let s1 := (scene.sampleLight sampler).2.2
       let light_surf := (light.samplePoint s1).1
       let p_pos := (light.samplePoint s1).2.1
       let s2 := (light.samplePoint s1).2.2
       let r := sq (Vec3.dot (light_surf.position - info.surfaceInfo.position)
         (light_surf.position - info.surfaceInfo.position))
       let wi := (light_surf.position - info.surfaceInfo.position) / r
       let p_omega := p_pos * r * r / |Vec3.dot (-wi) light_surf.shadingNormal|
       match scene.intersect ⟨info.surfaceInfo.position, wi, r - RAY_EPS⟩ with
       | none =>
         (info.hitPrimitive.evaluateBxDF wo wi info.surfaceInfo
             TransportDirection.FROM_CAMERA *
           |Vec3.dot wi info.surfaceInfo.shadingNormal| *
           light.emittedLe light_surf (-wi) / (p_L * p_omega), s2)
       | some _ => (0, s2)) := rfl

/-- Embedding of `PhotonMapping::sampleRayFromLight` (`integrator.h`
lines 230-254): light selection, point and direction sampling, initial
throughput `Le · |dir · n_shading| / (p_L · p_pos · p_dir)`. -/
def sampleRayFromLight (scene : Scene) (sampler : Sampler) :
    Ray × Vec3 × Sampler :=
  let lc := scene.sampleLight sampler
  let light := lc.1
  let light_choose_pdf := lc.2.1
  let s1 := lc.2.2
  let ps := light.samplePoint s1
  let light_surf := ps.1
  let light_pos_pdf := ps.2.1
  let s2 := ps.2.2
  let ds := light.sampleDirection light_surf s2
  let dir := ds.1
  let light_dir_pdf := ds.2.1
  let s3 := ds.2.2
  let ray := mkRay light_surf.position dir
  let throughput := light.emittedLe light_surf dir /
      (light_choose_pdf * light_pos_pdf * light_dir_pdf) *
      |Vec3.dot dir light_surf.shadingNormal|
  (ray, throughput, s3)

/-- Russian-roulette step shared by both photon passes (`integrator.h`
lines 430-441 and 529-541): at bounce index `k = 0` nothing happens; at
`k > 0` the survival probability is
`q = min(max(throughput channels), 1)`, a variate `u` is drawn, the path
dies when `u ≥ q` and otherwise the throughput is divided by `q`.
Returns (survived, new throughput, advanced sampler). -/
def russianRoulette (k : ℕ) (throughput : Vec3) (sampler : Sampler) :
    Bool × Vec3 × Sampler :=
  if k > 0 then
    let russian_roulette_prob :=
      min (max throughput.x (max throughput.y throughput.z)) 1
    let u := sampler.getNext1D
    if u.1 ≥ russian_roulette_prob then (false, throughput, u.2)
    else (true, throughput / russian_roulette_prob, u.2)
  else (true, throughput, sampler)

/-- Embedding of the global-pass per-photon bounce loop (`integrator.h`
lines 401-462), structurally recursive on the remaining bounce budget
`rem` with current bounce index `k` (the C++ loop runs `k` from 0 to
`maxDepth - 1`). The NaN test of the source is unrepresentable over `ℚ`;
the negative-channel test is kept. Deposited photons are accumulated in
`photons`. -/
def tracePhotonGlobalLoop (scene : Scene) :
    ℕ → ℕ → Vec3 → Ray → Sampler → List Photon → List Photon × Sampler
  | 0, _, _, _, sampler, photons => (photons, sampler)
  | rem + 1, k, throughput, ray, sampler, photons =>
    if throughput.x < 0 ∨ throughput.y < 0 ∨ throughput.z < 0 then
      (photons, sampler)
    else
      match scene.intersect ray with
      | none => (photons, sampler)
      | some info =>
        let photons1 :=
          if info.hitPrimitive.bxdfType = BxDFType.DIFFUSE then
            photons ++ [⟨throughput, info.surfaceInfo.position, -ray.direction⟩]
          else photons
        let rr := russianRoulette k throughput sampler
        if rr.1 then
          let smp := info.hitPrimitive.sampleBxDF (-ray.direction)
            info.surfaceInfo TransportDirection.FROM_LIGHT rr.2.2
          tracePhotonGlobalLoop scene rem (k + 1)
            (rr.2.1 * (smp.f * cosTerm (-ray.direction) smp.dir
              info.surfaceInfo TransportDirection.FROM_LIGHT / smp.pdf))
            (mkRay info.surfaceInfo.position smp.dir) smp.sampler photons1
        else (photons1, rr.2.2)

/-- Embedding of the caustic-pass per-photon bounce loop (`integrator.h`
lines 489-563): identical bounce structure, but a diffuse hit terminates
the path, deposits exactly when the previous bounce was specular, and the
`prev_specular` flag is refreshed to `material == Specular` before each
continuing bounce. -/
def tracePhotonCausticLoop (scene : Scene) :
    ℕ → ℕ → Bool → Vec3 → Ray → Sampler → List Photon →
      List Photon × Sampler
  | 0, _, _, _, _, sampler, photons => (photons, sampler)
  | rem + 1, k, prev_specular, throughput, ray, sampler, photons =>
    if throughput.x < 0 ∨ throughput.y < 0 ∨ throughput.z < 0 then
      (photons, sampler)
    else
      match scene.intersect ray with
      | none => (photons, sampler)
      | some info =>
        if !prev_specular &&
            (info.hitPrimitive.bxdfType == BxDFType.DIFFUSE) then
          (photons, sampler)
        else if prev_specular &&
            (info.hitPrimitive.bxdfType == BxDFType.DIFFUSE) then
          (photons ++ [⟨throughput, info.surfaceInfo.position, -ray.direction⟩],
            sampler)
        else
          let prev_specular1 :=
            info.hitPrimitive.bxdfType == BxDFType.SPECULAR
          let rr := russianRoulette k throughput sampler
          if rr.1 then
            let smp := info.hitPrimitive.sampleBxDF (-ray.direction)
              info.surfaceInfo TransportDirection.FROM_LIGHT rr.2.2
            tracePhotonCausticLoop scene rem (k + 1) prev_specular1
              (rr.2.1 * (smp.f * cosTerm (-ray.direction) smp.dir
                info.surfaceInfo TransportDirection.FROM_LIGHT / smp.pdf))
              (mkRay info.surfaceInfo.position smp.dir) smp.sampler photons
          else (photons, rr.2.2)

/-- One global-pass photon path (`build`, lines 390-462): initial ray and
throughput from the light, then the bounce loop from index 0. -/
def tracePhotonGlobal (scene : Scene) (maxDepth : ℤ) (sampler : Sampler) :
    List Photon × Sampler :=
  let init := sampleRayFromLight scene sampler
  tracePhotonGlobalLoop scene maxDepth.toNat 0 init.2.1 init.1 init.2.2 []

/-- One caustic-pass photon path (`build`, lines 478-564): initial ray
and throughput from the light, then the bounce loop from index 0 with
`prev_specular` initialized to `false`. -/
def tracePhotonCaustic (scene : Scene) (maxDepth : ℤ) (sampler : Sampler) :
    List Photon × Sampler :=
  let init := sampleRayFromLight scene sampler
  tracePhotonCausticLoop scene maxDepth.toNat 0 false init.2.1 init.1
    init.2.2 []

/-- Concrete light used by witnesses: samples the witness surface with
unit densities and emits `(1,1,1)`. -/
def lightW : Light :=
  ⟨fun s => (siW, 1, s), fun _ s => (⟨0, 0, 1⟩, 1, s), fun _ _ => ⟨1, 1, 1⟩⟩

/-- Concrete scene used by witnesses: every ray hits the diffuse witness
primitive, and light sampling is the witness light with probability 1. -/
def diffuseSceneW : Scene := ⟨fun _ => some infoW, fun s => (lightW, 1, s)⟩

/-- In a scene whose every intersection is diffuse, the caustic-pass
bounce loop started with `prev_specular = false` terminates without
depositing anything: the first hit is diffuse with a clear flag. -/
theorem causticLoop_allDiffuse (scene : Scene)
    (hall : ∀ r i, scene.intersect r = some i →
      i.hitPrimitive.bxdfType = BxDFType.DIFFUSE)
    (rem k : ℕ) (t : Vec3) (ray : Ray) (s : Sampler)
    (photons : List Photon) :
    tracePhotonCausticLoop scene rem k false t ray s photons =
      (photons, s) := by
  cases rem with
  | zero => rfl
  | succ n =>
    simp only [tracePhotonCausticLoop]
    by_cases hneg : t.x < 0 ∨ t.y < 0 ∨ t.z < 0
    · rw [if_pos hneg]
    · rw [if_neg hneg]
      cases h : scene.intersect ray with
      | none => rfl
      | some info =>
        have hd := hall ray info h
        simp [hd]

/-- C5: in the caustic photon pass the `prev_specular` flag starts
`false`; a diffuse hit with the flag clear terminates the path with no
deposit; a diffuse hit with the flag set deposits exactly one photon and
terminates; a continuing (specular) bounce refreshes the flag to
`material == Specular` (which is `true`); and in an all-diffuse scene a
caustic path deposits nothing. -/
theorem caustic_pass_state_machine :
    (∀ (scene : Scene) (maxDepth : ℤ) (sampler : Sampler),
      tracePhotonCaustic scene maxDepth sampler =
        tracePhotonCausticLoop scene maxDepth.toNat 0 false
          (sampleRayFromLight scene sampler).2.1
          (sampleRayFromLight scene sampler).1
          (sampleRayFromLight scene sampler).2.2 []) ∧
    (∀ (scene : Scene) (rem k : ℕ) (t : Vec3) (ray : Ray) (s : Sampler)
        (photons : List Photon) (info : IntersectInfo),
      ¬(t.x < 0 ∨ t.y < 0 ∨ t.z < 0) →
      scene.intersect ray = some info →
      info.hitPrimitive.bxdfType = BxDFType.DIFFUSE →
      tracePhotonCausticLoop scene (rem + 1) k false t ray s photons =
        (photons, s)) ∧
    (∀ (scene : Scene) (rem k : ℕ) (t : Vec3) (ray : Ray) (s : Sampler)
        (photons : List Photon) (info : IntersectInfo),
      ¬(t.x < 0 ∨ t.y < 0 ∨ t.z < 0) →
      scene.intersect ray = some info →
      info.hitPrimitive.bxdfType = BxDFType.DIFFUSE →
      tracePhotonCausticLoop scene (rem + 1) k true t ray s photons =
        (photons ++ [⟨t, info.surfaceInfo.position, -ray.direction⟩], s)) ∧
    (∀ (scene : Scene) (rem k : ℕ) (ps : Bool) (t : Vec3) (ray : Ray)
        (s : Sampler) (photons : List Photon) (info : IntersectInfo),
      ¬(t.x < 0 ∨ t.y < 0 ∨ t.z < 0) →
      scene.intersect ray = some info →
      info.hitPrimitive.bxdfType = BxDFType.SPECULAR →
      tracePhotonCausticLoop scene (rem + 1) k ps t ray s photons =
        (let rr := russianRoulette k t s
         if rr.1 then
           let smp := info.hitPrimitive.sampleBxDF (-ray.direction)
             info.surfaceInfo TransportDirection.FROM_LIGHT rr.2.2
           tracePhotonCausticLoop scene rem (k + 1) true
             (rr.2.1 * (smp.f * cosTerm (-ray.direction) smp.dir
               info.surfaceInfo TransportDirection.FROM_LIGHT / smp.pdf))
             (mkRay info.surfaceInfo.position smp.dir) smp.sampler photons
         else (photons, rr.2.2))) ∧
    (∀ (scene : Scene) (maxDepth : ℤ) (sampler : Sampler),
      (∀ r i, scene.intersect r = some i →
        i.hitPrimitive.bxdfType = BxDFType.DIFFUSE) →
      (tracePhotonCaustic scene maxDepth sampler).1 = []) := by
  refine ⟨fun scene maxDepth sampler => rfl, ?_, ?_, ?_, ?_⟩
  · intro scene rem k t ray s photons info hneg hI hd
    simp only [tracePhotonCausticLoop]
    rw [if_neg hneg, hI]
    simp [hd]
  · intro scene rem k t ray s photons info hneg hI hd
    simp only [tracePhotonCausticLoop]
    rw [if_neg hneg, hI]
    simp [hd]
  · intro scene rem k ps t ray s photons info hneg hI hs
    simp only [tracePhotonCausticLoop]
    rw [if_neg hneg, hI]
    simp [hs]
  · intro scene maxDepth sampler hall
    show (tracePhotonCausticLoop scene maxDepth.toNat 0 false _ _ _ []).1 = []
    rw [causticLoop_allDiffuse scene hall]

/-- Witness for C5: in the all-diffuse witness scene the caustic store
of one traced path is empty. -/
theorem caustic_pass_state_machine_witness :
    (tracePhotonCaustic diffuseSceneW 5 ⟨[]⟩).1 = [] :=
  caustic_pass_state_machine.2.2.2.2 diffuseSceneW 5 ⟨[]⟩
    (fun r i h => by
      injection h with h2
      rw [← h2]
      rfl)

/-- C6: Russian roulette at bounce index 0 does nothing (no variate
consumed, throughput untouched); at `k > 0` the survival probability is
`q = min(max(throughput channels), 1)`, the path dies when the drawn
variate is `≥ q` and otherwise the throughput is divided by `q`; and in
both photon passes the roulette step follows the deposit step of the
bounce at index `k` (termination keeps the photons deposited so far). -/
theorem russian_roulette_characterization :
    (∀ (t : Vec3) (s : Sampler), russianRoulette 0 t s = (true, t, s)) ∧
    (∀ (k : ℕ) (t : Vec3) (s : Sampler), 0 < k →
      russianRoulette k t s =
        if s.getNext1D.1 ≥ min (max t.x (max t.y t.z)) 1 then
          (false, t, s.getNext1D.2)
        else (true, t / min (max t.x (max t.y t.z)) 1, s.getNext1D.2)) ∧
    (∀ (scene : Scene) (rem k : ℕ) (t : Vec3) (ray : Ray) (s : Sampler)
        (photons : List Photon) (info : IntersectInfo),
      ¬(t.x < 0 ∨ t.y < 0 ∨ t.z < 0) →
      scene.intersect ray = some info →
      tracePhotonGlobalLoop scene (rem + 1) k t ray s photons =
        (let photons1 :=
          if info.hitPrimitive.bxdfType = BxDFType.DIFFUSE then
            photons ++ [⟨t, info.surfaceInfo.position, -ray.direction⟩]
          else photons
         let rr := russianRoulette k t s
         if rr.1 then
           let smp := info.hitPrimitive.sampleBxDF (-ray.direction)
             info.surfaceInfo TransportDirection.FROM_LIGHT rr.2.2
           tracePhotonGlobalLoop scene rem (k + 1)
             (rr.2.1 * (smp.f * cosTerm (-ray.direction) smp.dir
               info.surfaceInfo TransportDirection.FROM_LIGHT / smp.pdf))
             (mkRay info.surfaceInfo.position smp.dir) smp.sampler photons1
         else (photons1, rr.2.2))) ∧
    (∀ (scene : Scene) (rem k : ℕ) (ps : Bool) (t : Vec3) (ray : Ray)
        (s : Sampler) (photons : List Photon) (info : IntersectInfo),
      ¬(t.x < 0 ∨ t.y < 0 ∨ t.z < 0) →
      scene.intersect ray = some info →
      info.hitPrimitive.bxdfType = BxDFType.SPECULAR →
      tracePhotonCausticLoop scene (rem + 1) k ps t ray s photons =
        (let rr := russianRoulette k t s
         if rr.1 then
           let smp := info.hitPrimitive.sampleBxDF (-ray.direction)
             info.surfaceInfo TransportDirection.FROM_LIGHT rr.2.2
           tracePhotonCausticLoop scene rem (k + 1)
             (info.hitPrimitive.bxdfType == BxDFType.SPECULAR)
             (rr.2.1 * (smp.f * cosTerm (-ray.direction) smp.dir
               info.surfaceInfo TransportDirection.FROM_LIGHT / smp.pdf))
             (mkRay info.surfaceInfo.position smp.dir) smp.sampler photons
         else (photons, rr.2.2))) := by
  refine ⟨fun t s => rfl, ?_, ?_, ?_⟩
  · intro k t s hk
    simp only [russianRoulette]
    rw [if_pos hk]
  · intro scene rem k t ray s photons info hneg hI
    simp only [tracePhotonGlobalLoop]
    rw [if_neg hneg, hI]
  · intro scene rem k ps t ray s photons info hneg hI hs
    simp only [tracePhotonCausticLoop]
    rw [if_neg hneg, hI]
    simp [hs]

/-- Witness for C6: at bounce index 1 with throughput `(1,1,1)` the
survival probability is 1 and a drawn variate of 1 kills the path. -/
theorem russian_roulette_characterization_witness :
    (0 : ℕ) < 1 ∧
    russianRoulette 1 ⟨1, 1, 1⟩ ⟨[1]⟩ =
      (false, ⟨1, 1, 1⟩, ⟨[]⟩) := by
  refine ⟨by norm_num, ?_⟩
  have h := russian_roulette_characterization.2.1 1 ⟨1, 1, 1⟩ ⟨[1]⟩
    (by norm_num)
  rw [h]
  norm_num [Sampler.getNext1D]

/-- Fuel-indexed embedding of
`PhotonMapping::computeIndirectIlluminationRecursive` (`integrator.h`
lines 174-219). The recursion of the source is bounded by the
`depth ≥ maxDepth` guard; the fuel argument makes it structural and the
wrapper below supplies `(maxDepth - depth).toNat` units, so the
fuel-exhausted branch coincides with the guard. -/
def computeIndirectIlluminationAux (pm : PhotonMapping) (scene : Scene) :
    ℕ → Vec3 → IntersectInfo → Sampler → ℤ → Vec3 × Sampler
  | 0, _, _, sampler, _ => (0, sampler)
  | fuel + 1, wo, info, sampler, depth =>
    if depth ≥ pm.maxDepth then (0, sampler)
    else
      let smp := info.hitPrimitive.sampleBxDF wo info.surfaceInfo
        TransportDirection.FROM_CAMERA sampler
      let c := |Vec3.dot info.surfaceInfo.shadingNormal smp.dir|
      let ray_fg := mkRay info.surfaceInfo.position smp.dir
      match scene.intersect ray_fg with
      | none => (0, smp.sampler)
      | some info_fg =>
        match info_fg.hitPrimitive.bxdfType with
        | BxDFType.DIFFUSE =>
          (smp.f * c * computeRadianceWithPhotonMap pm (-ray_fg.direction)
              info_fg / smp.pdf, smp.sampler)
        | BxDFType.SPECULAR =>
          let rec1 := computeIndirectIlluminationAux pm scene fuel
            (-ray_fg.direction) info_fg smp.sampler (depth + 1)
          (smp.f * c * rec1.1 / smp.pdf, rec1.2)

/-- `computeIndirectIlluminationRecursive` at a given depth. -/
def computeIndirectIlluminationRecursive (pm : PhotonMapping) (scene : Scene)
    (wo : Vec3) (info : IntersectInfo) (sampler : Sampler) (depth : ℤ) :
    Vec3 × Sampler :=
  computeIndirectIlluminationAux pm scene (pm.maxDepth - depth).toNat wo info
    sampler depth

/-- Embedding of `PhotonMapping::computeIndirectIllumination`
(`integrator.h` lines 222-227): final gathering starting at depth 0. -/
def computeIndirectIllumination (pm : PhotonMapping) (scene : Scene)
    (wo : Vec3) (info : IntersectInfo) (sampler : Sampler) : Vec3 × Sampler :=
  computeIndirectIlluminationRecursive pm scene wo info sampler 0

/-- Fuel-indexed embedding of `PhotonMapping::integrateRecursive`
(`integrator.h` lines 256-358). The wrapper below supplies
`(maxDepth - depth).toNat` units of fuel, so the fuel-exhausted branch
coincides with the `depth ≥ maxDepth` guard of the source. The source's
invalid-material branch is unreachable over the two-constructor
`BxDFType`. -/
def integrateAux (sq : ℚ → ℚ) (pm : PhotonMapping) (scene : Scene) :
    ℕ → Ray → Sampler → ℤ → Vec3 × Sampler
  | 0, _, sampler, _ => (0, sampler)
  | fuel + 1, ray, sampler, depth =>
    if depth ≥ pm.maxDepth then (0, sampler)
    else
      match scene.intersect ray with
      | none => (0, sampler)
      | some info =>
        if info.hitPrimitive.hasAreaLight then
          (info.hitPrimitive.emittedLe info.surfaceInfo (-ray.direction),
            sampler)
        else
          match info.hitPrimitive.bxdfType with
          | BxDFType.DIFFUSE =>
            if depth ≥ pm.finalGatheringDepth then
              (computeRadianceWithPhotonMap pm (-ray.direction) info, sampler)
            else
              let ld := computeDirectIllumination sq scene (-ray.direction)
                info sampler
              let lc := computeCausticsWithPhotonMap pm (-ray.direction) info
              let li := computeIndirectIllumination pm scene (-ray.direction)
                info ld.2
              (ld.1 + lc + li.1, li.2)
          | BxDFType.SPECULAR =>
            if depth ≥ 3 then
              let smp := info.hitPrimitive.sampleBxDF (-ray.direction)
                info.surfaceInfo TransportDirection.FROM_CAMERA sampler
              let next_ray := mkRay info.surfaceInfo.position smp.dir
              let throughput := smp.f * cosTerm (-ray.direction) smp.dir
                info.surfaceInfo TransportDirection.FROM_CAMERA / smp.pdf
              let rec1 := integrateAux sq pm scene fuel next_ray smp.sampler
                (depth + 1)
              (throughput * rec1.1, rec1.2)
            else
              (info.hitPrimitive.sampleAllBxDF (-ray.direction)
                  info.surfaceInfo TransportDirection.FROM_CAMERA).foldl
                (fun acc dp =>
                  let dir : Vec3 := dp.1
                  let f : Vec3 := dp.2
                  let next_ray := mkRay info.surfaceInfo.position dir
                  let throughput : Vec3 :=
                    f * |Vec3.dot dir info.surfaceInfo.shadingNormal|
                  let rec1 := integrateAux sq pm scene fuel next_ray acc.2
                    (depth + 1)
                  (acc.1 + throughput * rec1.1, rec1.2))
                ((0 : Vec3), sampler)

/-- `PhotonMapping::integrateRecursive` at a given depth. -/
def integrateRecursive (sq : ℚ → ℚ) (pm : PhotonMapping) (ray : Ray)
    (scene : Scene) (sampler : Sampler) (depth : ℤ) : Vec3 × Sampler :=
  integrateAux sq pm scene (pm.maxDepth - depth).toNat ray sampler depth

/-- Embedding of `PhotonMapping::integrate` (`integrator.h` lines
572-576): the recursive estimator started at depth 0. -/
def integrate (sq : ℚ → ℚ) (pm : PhotonMapping) (ray : Ray) (scene : Scene)
    (sampler : Sampler) : Vec3 × Sampler :=
  integrateRecursive sq pm ray scene sampler 0

/-- C7: the recursive radiance estimator returns 0 when
`depth ≥ maxDepth`; returns 0 when the ray misses the scene; and on an
emitter hit returns `Le(surface, -ray.direction)` directly, with no
material dispatch or recursion (the result does not depend on the hit
material tag). -/
theorem integrate_base_cases :
    (∀ (sq : ℚ → ℚ) (pm : PhotonMapping) (ray : Ray) (scene : Scene)
        (sampler : Sampler) (depth : ℤ), depth ≥ pm.maxDepth →
      integrateRecursive sq pm ray scene sampler depth = (0, sampler)) ∧
    (∀ (sq : ℚ → ℚ) (pm : PhotonMapping) (ray : Ray) (scene : Scene)
        (sampler : Sampler) (depth : ℤ), scene.intersect ray = none →
      integrateRecursive sq pm ray scene sampler depth = (0, sampler)) ∧
    (∀ (sq : ℚ → ℚ) (pm : PhotonMapping) (ray : Ray) (scene : Scene)
        (sampler : Sampler) (depth : ℤ) (info : IntersectInfo),
      depth < pm.maxDepth →
      scene.intersect ray = some info →
      info.hitPrimitive.hasAreaLight = true →
      integrateRecursive sq pm ray scene sampler depth =
        (info.hitPrimitive.emittedLe info.surfaceInfo (-ray.direction),
          sampler)) := by
  refine ⟨?_, ?_, ?_⟩
  · intro sq pm ray scene sampler depth hge
    unfold integrateRecursive
    have h0 : (pm.maxDepth - depth).toNat = 0 := by omega
    rw [h0]
    rfl
  · intro sq pm ray scene sampler depth hmiss
    unfold integrateRecursive
    cases hfuel : (pm.maxDepth - depth).toNat with
    | zero => rfl
    | succ n =>
      simp only [integrateAux]
      by_cases hd : depth ≥ pm.maxDepth
      · rw [if_pos hd]
      · rw [if_neg hd, hmiss]
  · intro sq pm ray scene sampler depth info hlt hI hA
    unfold integrateRecursive
    have hfuel : (pm.maxDepth - depth).toNat =
        (pm.maxDepth - (depth + 1)).toNat + 1 := by omega
    rw [hfuel]
    simp only [integrateAux]
    rw [if_neg (not_le.mpr hlt), hI]
    simp [hA]

/-- Witness scene objects: a specular, non-emitting primitive that
always reflects into `(0,0,1)` with unit pdf. -/
def specPrimW : Primitive where
  bxdfType := BxDFType.SPECULAR
  hasAreaLight := false
  emittedLe := fun _ _ => 0
  evaluateBxDF := fun _ _ _ _ => 0
  sampleBxDF := fun _ _ _ s => ⟨⟨1, 1, 1⟩, ⟨0, 0, 1⟩, 1, s⟩
  sampleAllBxDF := fun _ _ _ => []

/-- Specular hit record for witnesses. -/
def infoSW : IntersectInfo := ⟨siW, specPrimW⟩

/-- Scene in which every ray hits the specular witness primitive. -/
def specSceneW : Scene := ⟨fun _ => some infoSW, fun s => (lightW, 1, s)⟩

/-- Witness ray from the origin along `(0,0,1)`. -/
def rayW : Ray := mkRay ⟨0, 0, 0⟩ ⟨0, 0, 1⟩

/-- Witness integrator state with `maxDepth = 4`. -/
def pmW : PhotonMapping where
  nPhotonsGlobal := 1
  nEstimationGlobal := 1
  nPhotonsCaustics := 1
  nEstimationCaustics := 1
  finalGatheringDepth := 0
  maxDepth := 4
  globalPhotonMap := emptyMap
  causticsPhotonMap := emptyMap

/-- Witness for C7: at depth 5 ≥ maxDepth = 4 the estimator returns 0. -/
theorem integrate_base_cases_witness :
    (5 : ℤ) ≥ pmW.maxDepth ∧
    integrateRecursive id pmW rayW specSceneW ⟨[]⟩ 5 = (0, ⟨[]⟩) :=
  ⟨by norm_num [pmW],
    integrate_base_cases.1 id pmW rayW specSceneW ⟨[]⟩ 5 (by norm_num [pmW])⟩

/-- C8: at a specular camera-pass hit, when `depth ≥ 3` the estimator
samples one direction and recurses with throughput
`f · cosTerm(FROM_CAMERA) / pdf`; when `depth < 3` it folds over all
direction pairs of `sampleAll`, summing the recursive contributions
weighted by `f · |wi · n_shading|` with no cosine light-leak guard and no
pdf division. -/
theorem specular_camera_branches :
    (∀ (sq : ℚ → ℚ) (pm : PhotonMapping) (scene : Scene) (ray : Ray)
        (sampler : Sampler) (depth : ℤ) (info : IntersectInfo),
      scene.intersect ray = some info →
      info.hitPrimitive.hasAreaLight = false →
      info.hitPrimitive.bxdfType = BxDFType.SPECULAR →
      depth < pm.maxDepth →
      3 ≤ depth →
      integrateRecursive sq pm ray scene sampler depth =
        (let smp := info.hitPrimitive.sampleBxDF (-ray.direction)
           info.surfaceInfo TransportDirection.FROM_CAMERA sampler
         let rec1 := integrateRecursive sq pm
           (mkRay info.surfaceInfo.position smp.dir) scene smp.sampler
           (depth + 1)
         ((smp.f * cosTerm (-ray.direction) smp.dir info.surfaceInfo
             TransportDirection.FROM_CAMERA / smp.pdf) * rec1.1, rec1.2))) ∧
    (∀ (sq : ℚ → ℚ) (pm : PhotonMapping) (scene : Scene) (ray : Ray)
        (sampler : Sampler) (depth : ℤ) (info : IntersectInfo),
      scene.intersect ray = some info →
      info.hitPrimitive.hasAreaLight = false →
      info.hitPrimitive.bxdfType = BxDFType.SPECULAR →
      depth < pm.maxDepth →
      depth < 3 →
      integrateRecursive sq pm ray scene sampler depth =
        (info.hitPrimitive.sampleAllBxDF (-ray.direction) info.surfaceInfo
            TransportDirection.FROM_CAMERA).foldl
          (fun acc dp =>
            let rec1 := integrateRecursive sq pm
              (mkRay info.surfaceInfo.position dp.1) scene acc.2 (depth + 1)
            (acc.1 + ((dp.2 : Vec3) *
              |Vec3.dot dp.1 info.surfaceInfo.shadingNormal|) * rec1.1,
              rec1.2))
          ((0 : Vec3), sampler)) := by
  constructor
  · intro sq pm scene ray sampler depth info hI hA hS hlt h3
    unfold integrateRecursive
    have hfuel : (pm.maxDepth - depth).toNat =
        (pm.maxDepth - (depth + 1)).toNat + 1 := by omega
    rw [hfuel]
    simp only [integrateAux]
    rw [if_neg (not_le.mpr hlt), hI]
    simp [hA, hS, if_pos h3]
  · intro sq pm scene ray sampler depth info hI hA hS hlt h3
    unfold integrateRecursive
    have hfuel : (pm.maxDepth - depth).toNat =
        (pm.maxDepth - (depth + 1)).toNat + 1 := by omega
    rw [hfuel]
    simp only [integrateAux]
    rw [if_neg (not_le.mpr hlt), hI]
    have hn3 : ¬depth ≥ 3 := not_le.mpr h3
    simp [hA, hS, hn3]

/-- Witness for C8 at the specular witness scene, depth 3 < maxDepth 4:
the single recursion at depth 4 hits the depth guard, so the result is
the zero vector with the sampler unchanged. -/
theorem specular_camera_branches_witness :
    (3 : ℤ) < pmW.maxDepth ∧ (3 : ℤ) ≤ 3 ∧
    integrateRecursive id pmW rayW specSceneW ⟨[]⟩ 3 = (0, ⟨[]⟩) := by
  refine ⟨by norm_num [pmW], le_refl 3, ?_⟩
  have h := specular_camera_branches.1 id pmW specSceneW rayW ⟨[]⟩ 3 infoSW
    rfl rfl rfl (by norm_num [pmW]) (le_refl 3)
  rw [h]
  show ((⟨1, 1, 1⟩ : Vec3) * cosTerm (-rayW.direction) ⟨0, 0, 1⟩
      infoSW.surfaceInfo TransportDirection.FROM_CAMERA / 1 *
      (integrateRecursive id pmW (mkRay infoSW.surfaceInfo.position ⟨0, 0, 1⟩)
        specSceneW ⟨[]⟩ 4).1,
    (integrateRecursive id pmW (mkRay infoSW.surfaceInfo.position ⟨0, 0, 1⟩)
        specSceneW ⟨[]⟩ 4).2) = (0, ⟨[]⟩)
  have h4 : integrateRecursive id pmW
      (mkRay infoSW.surfaceInfo.position ⟨0, 0, 1⟩) specSceneW ⟨[]⟩ 4 =
      (0, ⟨[]⟩) := rfl
  rw [h4]
  simp [Vec3.mul_def, Vec3.smul_def, Vec3.div_def, Vec3.zero_def]

/-- Digit-run accumulator of C `atoi`: consume decimal digits, stopping
at the first non-digit character. -/
def digitsToNat : List Char → ℕ → ℕ
  | [], acc => acc
  | c :: rest, acc =>
    if c.isDigit then digitsToNat rest (10 * acc + (c.toNat - 48)) else acc

/-- Modelled from the spec: C `atoi`, used by `main.cpp` for every
positional argument including the float caustic multiplier (line 15):
skip leading spaces, read an optional sign, then a decimal digit run;
parsing stops at the first non-digit, so any fractional part is
dropped. -/
def atoi (s : String) : ℤ :=
  let cs := s.toList.dropWhile (fun c => c == ' ')
  match cs with
  | '-' :: rest => -(digitsToNat rest 0 : ℤ)
  | '+' :: rest => (digitsToNat rest 0 : ℤ)
  | _ => (digitsToNat cs 0 : ℤ)

/-- Truncation of a rational toward zero, modelling the C++ float-to-int
conversion applied in the `PhotonMapping` constructor initializer. -/
def ratTruncToInt (q : ℚ) : ℤ := q.num / (q.den : ℤ)

/-- Embedding of the `PhotonMapping` constructor (`integrator.h` lines
361-369): `nPhotonsCaustics` is `nPhotonsGlobal ·
nPhotonsCausticsMultiplier` truncated to `int`; the photon maps start
empty. -/
def mkPhotonMapping (nPhotonsGlobal nEstimationGlobal : ℤ)
    (nPhotonsCausticsMultiplier : ℚ)
    (nEstimationCaustics strictCalcDepth maxDepth : ℤ) : PhotonMapping where
  nPhotonsGlobal := nPhotonsGlobal
  nEstimationGlobal := nEstimationGlobal
  nPhotonsCaustics :=
    ratTruncToInt ((nPhotonsGlobal : ℚ) * nPhotonsCausticsMultiplier)
  nEstimationCaustics := nEstimationCaustics
  finalGatheringDepth := strictCalcDepth
  maxDepth := maxDepth
  globalPhotonMap := emptyMap
  causticsPhotonMap := emptyMap

/-- Embedding of the argument handling of `main` (`main.cpp` lines
10-30): every argument is parsed with `atoi`; in particular the sixth
positional argument (`c[6]`, the caustic multiplier) is parsed with
`atoi` and only then converted to `float`. `argv` includes the program
name at index 0. -/
def mainIntegrator (argv : List String) : PhotonMapping :=
  let n_photons := atoi (argv.getD 4 "")
  let n_estimation_global := atoi (argv.getD 5 "")
  let n_photons_caustics_multiplier : ℚ := (atoi (argv.getD 6 "") : ℚ)
  let n_estimation_caustics := atoi (argv.getD 7 "")
  let final_gathering_depth := atoi (argv.getD 8 "")
  let max_depth := atoi (argv.getD 9 "")
  mkPhotonMapping n_photons n_estimation_global
    n_photons_caustics_multiplier n_estimation_caustics
    final_gathering_depth max_depth

/-- C2 (code divergence): `main` parses the sixth positional argument
with `atoi`, so the fractional multiplier "0.5" truncates to the integer
0 before the float conversion, and the caustic photon count of the
constructed integrator is 0 rather than half the global count of
100000. -/
theorem caustic_multiplier_parsed_with_atoi :
    atoi "0.5" = 0 ∧
    (mainIntegrator
      ["prog", "512", "512", "4", "100000", "100", "0.5", "50", "1",
        "10"]).nPhotonsGlobal = 100000 ∧
    (mainIntegrator
      ["prog", "512", "512", "4", "100000", "100", "0.5", "50", "1",
        "10"]).nPhotonsCaustics = 0 ∧
    (0 : ℤ) ≠ 50000 := by
  refine ⟨rfl, rfl, ?_, by norm_num⟩
  show ratTruncToInt ((100000 : ℚ) * ((0 : ℤ) : ℚ)) = 0
  norm_num [ratTruncToInt]

/-- Modelled from the spec: per-pixel body of the render loop of `main`
(`main.cpp` lines 36-73). The pixel's sampler is constructed with seed
`j + width · i` (line 41); `mkSampler` abstracts the seeded
`UniformSampler` constructor (`sampler.h` missing from `src/`), `camera`
abstracts `Camera::sampleRay` returning a ray and its pdf. A sample with
a negative radiance channel is discarded; a failed camera sample sets
the pixel to zero. -/
def renderPixel (sq : ℚ → ℚ) (pm : PhotonMapping) (scene : Scene)
    (camera : ℚ × ℚ → Option (Ray × ℚ)) (mkSampler : ℕ → Sampler)
    (width height nSamples : ℕ) (i j : ℕ) : Vec3 :=
  let sampler := mkSampler (j + width * i)
  ((List.range nSamples).foldl (fun st _ =>
    let u1 := st.2.getNext1D
    let u2 := u1.2.getNext1D
    let u := (2 * ((j : ℚ) + u1.1) - (width : ℚ)) / (height : ℚ)
    let v := (2 * ((i : ℚ) + u2.1) - (height : ℚ)) / (height : ℚ)
    match camera (u, v) with
    | some rp =>
      let res := integrate sq pm rp.1 scene u2.2
      let radiance := res.1 / rp.2
      if radiance.x < 0 ∨ radiance.y < 0 ∨ radiance.z < 0 then (st.1, res.2)
      else (st.1 + radiance, res.2)
    | none => ((0 : Vec3), u2.2))
    ((0 : Vec3), sampler)).1

/-- Image obtained by executing the independent per-pixel jobs in the
order given by `sched`: each job overwrites its own pixel with the value
computed from that pixel alone. A schedule models one interleaving of
the parallel render loop. -/
def runSchedule (pv : ℕ × ℕ → Vec3) :
    List (ℕ × ℕ) → ((ℕ × ℕ) → Vec3) → ((ℕ × ℕ) → Vec3)
  | [], img => img
  | p :: rest, img =>
    runSchedule pv rest (fun q => if q = p then pv p else img q)

/-- A pixel not named by the schedule keeps its initial value. -/
theorem runSchedule_not_mem (pv : ℕ × ℕ → Vec3) (sched : List (ℕ × ℕ))
    (img : (ℕ × ℕ) → Vec3) (p : ℕ × ℕ) (hp : p ∉ sched) :
    runSchedule pv sched img p = img p := by
  induction sched generalizing img with
  | nil => rfl
  | cons q rest ih =>
    have hqr : p ∉ rest := fun h => hp (List.mem_cons_of_mem q h)
    have hpq : p ≠ q := fun h => hp (h ▸ List.mem_cons_self q rest)
    simp only [runSchedule]
    rw [ih _ hqr]
    rw [if_neg hpq]

/-- A pixel named by the schedule ends with its job's value, however the
schedule is ordered. -/
theorem runSchedule_mem (pv : ℕ × ℕ → Vec3) (sched : List (ℕ × ℕ))
    (img : (ℕ × ℕ) → Vec3) (p : ℕ × ℕ) (hp : p ∈ sched) :
    runSchedule pv sched img p = pv p := by
  induction sched generalizing img with
  | nil => cases hp
  | cons q rest ih =>
    simp only [runSchedule]
    by_cases hr : p ∈ rest
    · rw [ih _ hr]
    · have hpq : p = q := by
        cases List.mem_cons.mp hp with
        | inl h => exact h
        | inr h => exact absurd h hr
      rw [runSchedule_not_mem _ _ _ _ hr, if_pos hpq, hpq]

/-- C10: the pixel sampler of the render phase is seeded with
`j + width·i` only — two runs whose sampler streams agree at that seed
produce the same pixel value — and the assembled image at a pixel is
invariant under the order in which the independent pixel jobs run, hence
under render-phase thread count and scheduling. -/
theorem render_deterministic :
    (∀ (sq : ℚ → ℚ) (pm : PhotonMapping) (scene : Scene)
        (camera : ℚ × ℚ → Option (Ray × ℚ)) (mk1 mk2 : ℕ → Sampler)
        (width height nSamples i j : ℕ),
      mk1 (j + width * i) = mk2 (j + width * i) →
      renderPixel sq pm scene camera mk1 width height nSamples i j =
        renderPixel sq pm scene camera mk2 width height nSamples i j) ∧
    (∀ (pv : ℕ × ℕ → Vec3) (sched1 sched2 : List (ℕ × ℕ))
        (img1 img2 : (ℕ × ℕ) → Vec3) (p : ℕ × ℕ),
      p ∈ sched1 → p ∈ sched2 →
      runSchedule pv sched1 img1 p = runSchedule pv sched2 img2 p) := by
  constructor
  · intro sq pm scene camera mk1 mk2 width height nSamples i j hmk
    unfold renderPixel
    rw [hmk]
  · intro pv sched1 sched2 img1 img2 p h1 h2
    rw [runSchedule_mem _ _ _ _ h1, runSchedule_mem _ _ _ _ h2]

/-- Witness for C10: two sampler factories agreeing at seed 12 = 2 +
10·1 give pixel (1,2) the same value, and two differently ordered
schedules containing pixel (0,0) assemble the same value there. -/
theorem render_deterministic_witness :
    renderPixel id pmW diffuseSceneW (fun _ => none) (fun _ => ⟨[]⟩)
        10 10 1 1 2 =
      renderPixel id pmW diffuseSceneW (fun _ => none)
        (fun n => if n = 12 then ⟨[]⟩ else ⟨[1]⟩) 10 10 1 1 2 ∧
    runSchedule (fun _ => 0) [(0, 0)] (fun _ => 0) (0, 0) =
      runSchedule (fun _ => 0) [(1, 1), (0, 0)] (fun _ => ⟨1, 1, 1⟩)
        (0, 0) :=
  ⟨render_deterministic.1 id pmW diffuseSceneW (fun _ => none) _ _
      10 10 1 1 2 rfl,
    render_deterministic.2 (fun _ => 0) _ _ _ _ (0, 0) (by simp) (by simp)⟩

end PM
